import Mathlib

/-!
Verification development for the tinbox translation core
(`src/tinbox/core/translation/algorithms.py`, `checkpoint.py`, `interface.py`).

Text is embedded as `List Char` (Python `str` slicing maps to `List.drop` /
`List.take`), Python `int` as `Int` or `Nat` where nonnegativity is evident
from the source, Python `float` accumulators as `ℚ` (Python float round-trips
through JSON exactly; no float rounding is exercised by the properties below),
and raising / exception flow as `Except PyErr`.  Wall-clock time fields are
embedded as the constant `0` (no property below depends on them).  Effectful
actions whose results are invisible in the returned value (progress-bar
updates, log lines, periodic checkpoint writes inside the loops) are omitted;
the value the synchronous `CheckpointManager.load()` returns is threaded in
as an explicit `Option TranslationState` argument (the algorithms `await`
that synchronous call, which raises `TypeError` — see `awaitLoadTypeError`).
-/

/-- Python exceptions that the modelled code can raise. -/
inductive PyErr where
  | translationError (msg : String)
  | valueError (msg : String)
  | typeError (msg : String)
  | attributeError (msg : String)
  | indexError
deriving DecidableEq, Repr

instance instDecEqExcept {ε α : Type} [DecidableEq ε] [DecidableEq α] :
    DecidableEq (Except ε α)
  | .ok x, .ok y =>
    if h : x = y then .isTrue (by rw [h]) else .isFalse (by simp [h])
  | .ok _, .error _ => .isFalse (by simp)
  | .error _, .ok _ => .isFalse (by simp)
  | .error e, .error f =>
    if h : e = f then .isTrue (by rw [h]) else .isFalse (by simp [h])

/-- `str(e)` for the exceptions above (used by the `f"Translation failed: {str(e)}"`
wrappers in `algorithms.py`). -/
def pyErrStr : PyErr → String
  | .translationError m => m
  | .valueError m => m
  | .typeError m => m
  | .attributeError m => m
  | .indexError => "list index out of range"

/-- One document unit: Python `str` or `bytes` (image buffer). -/
inductive PageUnit where
  | text (s : List Char)
  | image (data : List Nat)
deriving DecidableEq, Repr

/-- A Python `dict` key as it occurs in `TranslationState.translated_chunks`:
the annotation in `checkpoint.py` says `dict[int, str]`, but after a JSON
round-trip the keys come back as strings, so the embedding keeps the dynamic
type. -/
inductive PyKey where
  | intKey (n : Int)
  | strKey (s : String)
deriving DecidableEq, Repr

/-- Modelled from the spec: `DocumentContent` (`tinbox/core/processor.py` is
not part of the provided sources) — an ordered sequence of units plus a
content-type tag. -/
structure DocumentContent where
  pages : List PageUnit
  content_type : String
deriving DecidableEq, Repr

/-- Modelled from the spec: `TranslationConfig` (`tinbox/core/types.py` is not
part of the provided sources) — the immutable configuration value, with
exactly the fields read by `algorithms.py` and `checkpoint.py`.
`model` stands for `config.model.value`, `model_name` for the optional
`config.model_name`, `checkpoint_dir` for the optional directory. -/
structure TranslationConfig where
  source_lang : String
  target_lang : String
  model : String
  model_name : Option String
  algorithm : String
  window_size : Option Int
  overlap_size : Option Int
  checkpoint_dir : Option String
  checkpoint_frequency : Nat
  resume_from_checkpoint : Bool
  input_file : String
deriving DecidableEq, Repr

/-- `interface.py` `TranslationRequest` (the fields constructed by
`algorithms.py`; `model_params` is `{"model_name": config.model_name}` when
set and `{}` otherwise, embedded as the option itself). -/
structure TranslationRequest where
  source_lang : String
  target_lang : String
  content : PageUnit
  content_type : String
  model : String
  model_name : Option String
deriving DecidableEq, Repr

/-- `interface.py` `TranslationResponse` — used both as a per-unit result and
as the final aggregate.  `failed_pages`, `page_errors` and `warnings` default
to empty exactly as the pydantic `default_factory` fields do. -/
structure TranslationResponse where
  text : List Char
  tokens_used : Nat
  cost : ℚ
  time_taken : ℚ := 0
  failed_pages : List Nat := []
  page_errors : List (Nat × String) := []
  warnings : List String := []
deriving DecidableEq, Repr

/-- `checkpoint.py` `TranslationState` (dataclass).  `translated_chunks` is an
insertion-ordered association list mirroring the Python `dict`. -/
structure TranslationState where
  source_lang : String
  target_lang : String
  algorithm : String
  completed_pages : List Nat
  failed_pages : List Nat
  translated_chunks : List (PyKey × List Char)
  token_usage : Nat
  cost : ℚ
  time_taken : ℚ
deriving DecidableEq, Repr

/-- The blank-line separator `"\n\n"` used throughout `algorithms.py`. -/
def nl2 : List Char := '\n' :: '\n' :: []

/-- Python `t[-k:]` for `k ≥ 1`: the trailing `k` characters (the whole string
when it is shorter than `k`). -/
def sliceLast (t : List Char) (k : Nat) : List Char :=
  t.drop (t.length - k)

/-- Python `s.find(pat)` (first index of `pat` as a substring, scanning left to
right), returning `none` for Python's `-1`.  `i` is the index already scanned
past. -/
def pyFind (s pat : List Char) (i : Nat) : Option Nat :=
  match s with
  | [] => if pat = [] then some i else none
  | _ :: rest => if s.take pat.length = pat then some i else pyFind rest pat (i + 1)

/-- `algorithms.py` `extract_seam`: trailing `overlap_size` characters of
`text1` searched inside `text2`; on a hit, the slice
`text2[start_pos : start_pos + overlap_size]`. -/
def extract_seam (text1 text2 : List Char) (overlap_size : Int) : List Char :=
  if text1 = [] ∨ text2 = [] ∨ overlap_size ≤ 0 then []
  else
    let end1 := sliceLast text1 overlap_size.toNat
    if end1 = [] then []
    else
      match pyFind text2 end1 0 with
      | some p => (text2.drop p).take overlap_size.toNat
      | none => []

/-- The `for overlap_len in range(maxLen, 0, -1)` search in `merge_chunks`:
largest `k ≤ maxLen` with `result[-k:] == chunk[:k]`, if any. -/
def findOverlapLen (result chunk : List Char) : Nat → Option Nat
  | 0 => none
  | n + 1 =>
    if sliceLast result (n + 1) = chunk.take (n + 1) then some (n + 1)
    else findOverlapLen result chunk n

/-- One iteration of the `merge_chunks` loop: seam-stitch `chunk` onto the
accumulated `result`. -/
def mergeStep (overlap_size : Int) (result chunk : List Char) : List Char :=
  let maxLen := (min (min (result.length : Int) (chunk.length : Int)) overlap_size).toNat
  match findOverlapLen result chunk maxLen with
  | some k => result ++ nl2 ++ chunk.drop k
  | none => result ++ nl2 ++ chunk

/-- `algorithms.py` `merge_chunks`. -/
def merge_chunks (chunks : List (List Char)) (overlap_size : Int) : List Char :=
  match chunks with
  | [] => []
  | [c] => c
  | c :: rest =>
    if overlap_size = 0 then (c :: rest).flatten
    else rest.foldl (mergeStep overlap_size) c

/-- The `while start < len(text)` loop of `create_windows`, after validation
(`hov` records the already-checked `overlap_size < window_size`, which is also
what makes the loop terminate). -/
def createWindowsGo (text : List Char) (ws ov : Nat) (hov : ov < ws) (start : Nat) :
    List (List Char) :=
  if hlt : start < text.length then
    let e := min (start + ws) text.length
    let w := (text.drop start).take (e - start)
    if he : e = text.length then [w]
    else
      let start2 := e - min ov (e - start)
      if hbr : start2 = 0 ∨ e ≤ start2 then [w]
      else w :: createWindowsGo text ws ov hov start2
  else []
termination_by text.length - start
decreasing_by
  simp_wf
  omega

/-- `algorithms.py` `create_windows`: the empty-text early return precedes the
parameter validation; invalid parameters raise `ValueError`. -/
def create_windows (text : List Char) (window_size overlap_size : Int) :
    Except PyErr (List (List Char)) :=
  if text = [] then .ok []
  else if h1 : window_size ≤ 0 then .error (.valueError "Window size must be positive")
  else if h2 : overlap_size < 0 then .error (.valueError "Overlap size must be non-negative")
  else if h3 : window_size ≤ overlap_size then
    .error (.valueError "Overlap size must be less than window size")
  else .ok (createWindowsGo text window_size.toNat overlap_size.toNat (by omega) 0)

/-- Spec-side reconstruction for the lossless-coverage property: the first
window followed by every later window stripped of its `ov`-character overlap
prefix. -/
def joinWindows (ov : Nat) : List (List Char) → List Char
  | [] => []
  | w :: rest => w ++ (rest.map (List.drop ov)).flatten

/-- Spec-side occurrence predicate: `pat` occurs in `s` at index `p`. -/
def occursAt (pat s : List Char) (p : Nat) : Prop :=
  p + pat.length ≤ s.length ∧ (s.drop p).take pat.length = pat

instance (pat s : List Char) (p : Nat) : Decidable (occursAt pat s p) := by
  unfold occursAt
  infer_instance

/-- Python `str([3, 1, 2])` rendering of a list of page numbers. -/
def pyListRepr (l : List Nat) : String :=
  "[" ++ String.intercalate ", " (l.map (fun n => toString n)) ++ "]"

/-- `json.dump` rendering of a `dict` key: int keys are stringified, string
keys are kept. -/
def pyKeyToJson : PyKey → String
  | .intKey n => toString n
  | .strKey s => s

/-- The JSON object written by `CheckpointManager.save` (`checkpoint.py`):
the state fields plus the config fingerprint.  JSON object keys are strings,
so `translated_chunks` is keyed by `String` here. -/
structure CheckpointData where
  source_lang : String
  target_lang : String
  algorithm : String
  completed_pages : List Nat
  failed_pages : List Nat
  translated_chunks : List (String × List Char)
  token_usage : Nat
  cost : ℚ
  time_taken : ℚ
  config_source_lang : String
  config_target_lang : String
  config_model : String
  config_algorithm : String
deriving DecidableEq, Repr

/-- `checkpoint.py` `CheckpointManager.save`: the JSON value written (the
atomic temp-file-then-rename mechanics carry no information content). -/
def CheckpointManager.save (config : TranslationConfig) (state : TranslationState) :
    CheckpointData :=
  { source_lang := state.source_lang
    target_lang := state.target_lang
    algorithm := state.algorithm
    completed_pages := state.completed_pages
    failed_pages := state.failed_pages
    translated_chunks := state.translated_chunks.map (fun kv => (pyKeyToJson kv.1, kv.2))
    token_usage := state.token_usage
    cost := state.cost
    time_taken := state.time_taken
    config_source_lang := config.source_lang
    config_target_lang := config.target_lang
    config_model := config.model
    config_algorithm := config.algorithm }

/-- `checkpoint.py` `CheckpointManager.load`: `file = none` models a missing
checkpoint file; a config-fingerprint mismatch yields `none`; otherwise the
deserialized state — whose `translated_chunks` keys are the JSON string keys
(`json.load` does not convert them back to `int`). -/
def CheckpointManager.load (config : TranslationConfig) (file : Option CheckpointData) :
    Option TranslationState :=
  match file with
  | none => none
  | some data =>
    if data.config_source_lang ≠ config.source_lang
        ∨ data.config_target_lang ≠ config.target_lang
        ∨ data.config_model ≠ config.model
        ∨ data.config_algorithm ≠ config.algorithm then
      none
    else
      some
        { source_lang := data.source_lang
          target_lang := data.target_lang
          algorithm := data.algorithm
          completed_pages := data.completed_pages
          failed_pages := data.failed_pages
          translated_chunks := data.translated_chunks.map (fun kv => (PyKey.strKey kv.1, kv.2))
          token_usage := data.token_usage
          cost := data.cost
          time_taken := data.time_taken }

/-- The `TranslationRequest` built once per unit in both algorithm loops. -/
def mkRequest (config : TranslationConfig) (content : PageUnit) (ctype : String) :
    TranslationRequest :=
  { source_lang := config.source_lang
    target_lang := config.target_lang
    content := content
    content_type := ctype
    model := config.model
    model_name := config.model_name }

/-- The wrapping `except Exception as e: raise TranslationError(f"Translation
failed: {str(e)}")` around both algorithm bodies. -/
def wrapTranslationError : Except PyErr TranslationResponse → Except PyErr TranslationResponse
  | .ok r => .ok r
  | .error e => .error (.translationError ("Translation failed: " ++ pyErrStr e))

/-- `AttributeError` message for the call to the undefined
`CheckpointManager.cleanup_old_checkpoints` (quotes elided). -/
def cleanupAttrErr : PyErr :=
  .attributeError "CheckpointManager object has no attribute cleanup_old_checkpoints"

/-- The `TypeError` raised by `checkpoint = await checkpoint_manager.load()`
(`algorithms.py` lines 174 and 307): `CheckpointManager.load` is a synchronous
`def` (`checkpoint.py` line 101), so the `await` is applied to its plain
return value — `None` or a `TranslationState` — and raises Python's
`object X can't be used in 'await' expression` (quotes and contraction
elided here).  The argument is what `load()` returns synchronously; it decides
the type name in the message. -/
def awaitLoadTypeError (loaded : Option TranslationState) : PyErr :=
  match loaded with
  | none => .typeError "object NoneType cannot be used in await expression"
  | some _ => .typeError "object TranslationState cannot be used in await expression"

/-- The per-unit loop of `translate_page_by_page`: a translator failure on a
unit is caught, the 1-based index is appended to `failed`, and the loop
continues.  (The periodic checkpoint save inside the loop is effect-only and
omitted.) -/
def pageLoop (translator : TranslationRequest → Except PyErr TranslationResponse)
    (config : TranslationConfig) (ctype : String) :
    List PageUnit → Nat → List (List Char) → List Nat → Nat → ℚ →
      List (List Char) × List Nat × Nat × ℚ
  | [], _, translated, failed, tokens, cost => (translated, failed, tokens, cost)
  | p :: rest, idx, translated, failed, tokens, cost =>
    match translator (mkRequest config p ctype) with
    | .ok resp =>
      pageLoop translator config ctype rest (idx + 1) (translated ++ [resp.text]) failed
        (tokens + resp.tokens_used) (cost + resp.cost)
    | .error _ =>
      pageLoop translator config ctype rest (idx + 1) translated (failed ++ [idx + 1])
        tokens cost

/-- The `try:` body of `translate_page_by_page`.  `hasManager` records whether
a `checkpoint_manager` was passed; `loaded` is what the synchronous
`checkpoint_manager.load()` returns when it is consulted.  When the resume
branch is taken, `await checkpoint_manager.load()` raises `TypeError`
(`load` is not a coroutine), so the checkpoint-seeding block below it is
unreachable: `translated_pages` is empty on every path that reaches the loop,
making the slice `content.pages[len(translated_pages):]` the whole unit list
with enumeration starting at 0. -/
def pageBody (content : DocumentContent) (config : TranslationConfig)
    (translator : TranslationRequest → Except PyErr TranslationResponse)
    (hasManager : Bool) (loaded : Option TranslationState) :
    Except PyErr TranslationResponse :=
  if hasManager && config.resume_from_checkpoint then
    .error (awaitLoadTypeError loaded)
  else
  let res := pageLoop translator config content.content_type content.pages 0 [] [] 0 0
  let translated := res.1
  let failed := res.2.1
  if translated = [] then
    if failed ≠ [] then
      .error (.translationError
        ("Translation failed: No pages were successfully translated. Failed pages: "
          ++ pyListRepr failed))
    else .error (.translationError "Translation failed: No pages were successfully translated")
  else
    -- `await checkpoint_manager.cleanup_old_checkpoints(...)`: the method does
    -- not exist on `CheckpointManager`, so a present manager raises here.
    if hasManager then .error cleanupAttrErr
    else
      .ok { text := List.intercalate nl2 translated
            tokens_used := res.2.2.1
            cost := res.2.2.2
            time_taken := 0 }

/-- `algorithms.py` `translate_page_by_page`. -/
def translate_page_by_page (content : DocumentContent) (config : TranslationConfig)
    (translator : TranslationRequest → Except PyErr TranslationResponse)
    (hasManager : Bool) (loaded : Option TranslationState) :
    Except PyErr TranslationResponse :=
  wrapTranslationError (pageBody content config translator hasManager loaded)

/-- Python `"\n\n".join(content.pages)`: `TypeError` if a unit is `bytes`. -/
def joinPagesText (pages : List PageUnit) : Except PyErr (List Char) := do
  let ts ← pages.mapM (fun p =>
    match p with
    | PageUnit.text s => Except.ok s
    | PageUnit.image _ =>
      Except.error (PyErr.typeError "sequence item: expected str instance, bytes found"))
  return List.intercalate nl2 ts

/-- The per-window loop of `translate_sliding_window`: a failure is NOT caught
per window — it propagates.  (Periodic checkpoint saves again omitted.) -/
def slideLoop (translator : TranslationRequest → Except PyErr TranslationResponse)
    (config : TranslationConfig) :
    List (List Char) → List (List Char) → Nat → ℚ →
      Except PyErr (List (List Char) × Nat × ℚ)
  | [], acc, tokens, cost => .ok (acc, tokens, cost)
  | w :: rest, acc, tokens, cost =>
    match translator (mkRequest config (PageUnit.text w) "text/plain") with
    | .ok resp =>
      slideLoop translator config rest (acc ++ [resp.text]) (tokens + resp.tokens_used)
        (cost + resp.cost)
    | .error e => .error e

/-- The `try:` body of `translate_sliding_window`.  When the resume branch is
taken, `checkpoint = await checkpoint_manager.load()` raises `TypeError`
(`load` is a synchronous `def`), so the short-circuit block below it — return
the checkpoint's chunks joined by a blank line — is dead code with the
repository's `CheckpointManager`. -/
def slidingBody (content : DocumentContent) (config : TranslationConfig)
    (translator : TranslationRequest → Except PyErr TranslationResponse)
    (hasManager : Bool) (loaded : Option TranslationState) :
    Except PyErr TranslationResponse :=
  if hasManager && config.resume_from_checkpoint then
    .error (awaitLoadTypeError loaded)
  else do
    let text ← joinPagesText content.pages
    let ws : Int := config.window_size.getD 1000
    let ov : Int := config.overlap_size.getD (min 100 (Int.fdiv ws 4))
    let windows ← create_windows text ws ov
    let res ← slideLoop translator config windows [] 0 0
    let final := merge_chunks res.1 ov
    -- `await checkpoint_manager.cleanup_old_checkpoints(...)`: undefined method.
    if hasManager then .error cleanupAttrErr
    else
      .ok { text := final
            tokens_used := res.2.1
            cost := res.2.2
            time_taken := 0 }

/-- `algorithms.py` `translate_sliding_window`: the `content.pages[0]` access
and the `isinstance(..., bytes)` check sit before the `try:` block, so an
empty document surfaces a bare `IndexError` and an image document a bare
`TranslationError`, unwrapped. -/
def translate_sliding_window (content : DocumentContent) (config : TranslationConfig)
    (translator : TranslationRequest → Except PyErr TranslationResponse)
    (hasManager : Bool) (loaded : Option TranslationState) :
    Except PyErr TranslationResponse :=
  match content.pages with
  | [] => .error PyErr.indexError
  | first :: _ =>
    match first with
    | PageUnit.image _ =>
      .error (.translationError "Sliding window algorithm not supported for image content")
    | PageUnit.text _ =>
      wrapTranslationError (slidingBody content config translator hasManager loaded)

/-- `algorithms.py` `translate_document`: dispatch on `config.algorithm`; the
unknown-algorithm `TranslationError` is raised outside any wrapper. -/
def translate_document (content : DocumentContent) (config : TranslationConfig)
    (translator : TranslationRequest → Except PyErr TranslationResponse)
    (hasManager : Bool) (loaded : Option TranslationState) :
    Except PyErr TranslationResponse :=
  if config.algorithm = "page" then
    translate_page_by_page content config translator hasManager loaded
  else if config.algorithm = "sliding-window" then
    translate_sliding_window content config translator hasManager loaded
  else .error (.translationError ("Unknown algorithm: " ++ config.algorithm))

/-- A sample configuration for concrete evaluations (page algorithm, no
resume). -/
def cfgA : TranslationConfig :=
  { source_lang := "en"
    target_lang := "fr"
    model := "anthropic"
    model_name := none
    algorithm := "page"
    window_size := none
    overlap_size := none
    checkpoint_dir := none
    checkpoint_frequency := 1
    resume_from_checkpoint := false
    input_file := "doc.txt" }

/-- A sample configuration for the sliding-window resume scenario. -/
def cfgS : TranslationConfig :=
  { cfgA with algorithm := "sliding-window", resume_from_checkpoint := true }

/-- A sample checkpoint state with one translated chunk. -/
def stS : TranslationState :=
  { source_lang := "en"
    target_lang := "fr"
    algorithm := "sliding-window"
    completed_pages := [1]
    failed_pages := []
    translated_chunks := [(PyKey.intKey 1, 'h' :: 'i' :: [])]
    token_usage := 5
    cost := 0
    time_taken := 0 }

/-- A translator that fails on every request (witnessing that the resume
short-circuit and the all-units-fail scenarios never depend on a successful
call). -/
def trFail : TranslationRequest → Except PyErr TranslationResponse :=
  fun _ => .error (.translationError "boom")

/-- The concrete translator for the three-unit page scenario: fails on unit
`"u2"`, succeeds on the others by prefixing `T`. -/
def trC1 : TranslationRequest → Except PyErr TranslationResponse :=
  fun r =>
    match r.content with
    | PageUnit.text s =>
      if s = 'u' :: '2' :: [] then .error (.translationError "boom")
      else .ok { text := 'T' :: s, tokens_used := 1, cost := 0 }
    | PageUnit.image _ => .error (.translationError "boom")

/-- The two-unit document used to witness the all-units-fail scenario. -/
def docW : DocumentContent :=
  ⟨[PageUnit.text ('a' :: []), PageUnit.text ('b' :: [])], "text/plain"⟩

/-- C1 (code bug): for a 3-unit document where the translator fails exactly on
unit 2, `translate_document` with the page algorithm returns without raising
and the text is the translations of units 1 and 3 joined by a blank line — but
the aggregate response's `failed_pages` field is `[]`, not `[2]`: the code
records the failure only in a local list and a log line, never in the returned
`TranslationResponse`, contradicting the `interface.py` description of the
aggregate fields. -/
theorem page_partial_failure_failed_pages_empty :
    translate_document
      ⟨[PageUnit.text ('u' :: '1' :: []), PageUnit.text ('u' :: '2' :: []),
          PageUnit.text ('u' :: '3' :: [])], "text/plain"⟩
      cfgA trC1 false none =
      Except.ok
        { text := 'T' :: 'u' :: '1' :: '\n' :: '\n' :: 'T' :: 'u' :: '3' :: []
          tokens_used := 2
          cost := 0
          time_taken := 0
          failed_pages := [] } := by
  simp [translate_document, cfgA, translate_page_by_page, pageBody, wrapTranslationError,
    pageLoop, trC1, mkRequest, List.intercalate, nl2]

/-- C2 counterexample: `merge_chunks(["hello world", "world peace"], 5)` does
not equal `"hello world\n\npeace"` — the stripped remainder keeps its leading
space. -/
theorem merge_chunks_literal_cex :
    merge_chunks [("hello world".toList), ("world peace".toList)] 5 ≠
      "hello world\n\npeace".toList := by
  decide

/-- C2 (amended): `merge_chunks(["hello world", "world peace"], 5)` detects
the 5-character overlap `"world"` and returns `"hello world\n\n peace"` (the
non-overlapping remainder of the second chunk, `" peace"`, keeps its leading
space after the blank-line separator). -/
theorem merge_chunks_literal :
    merge_chunks [("hello world".toList), ("world peace".toList)] 5 =
      "hello world\n\n peace".toList := by
  decide

/-- C3 (code bug): saving a `TranslationState` whose `translated_chunks` is
keyed by the unit index `1` and loading it back under the identical config
yields a state keyed by the JSON string `"1"` — not a state equal to the one
saved; loading under a config with a different `target_lang` does yield
`none`. -/
theorem checkpoint_roundtrip_stringifies_keys :
    CheckpointManager.load cfgA (some (CheckpointManager.save cfgA stS)) =
      some { stS with translated_chunks := [(PyKey.strKey "1", 'h' :: 'i' :: [])] } ∧
    CheckpointManager.load cfgA (some (CheckpointManager.save cfgA stS)) ≠ some stS ∧
    CheckpointManager.load { cfgA with target_lang := "de" }
      (some (CheckpointManager.save cfgA stS)) = none := by
  refine ⟨rfl, ?_, rfl⟩
  decide

/-- C6 counterexample: for the empty text the early `if not text: return []`
precedes the validation, so `create_windows("", 0, 0)` returns `[]` instead of
failing although `window_size ≤ 0`. -/
theorem create_windows_empty_text_cex :
    create_windows [] 0 0 = Except.ok [] ∧ (create_windows [] 0 0).isOk = true :=
  ⟨rfl, rfl⟩

/-- C6 (amended): for every NON-empty text, `create_windows` fails with
`ValueError` (the spec's `InvalidArgument`) whenever `window_size ≤ 0`, or
`overlap_size < 0`, or `overlap_size ≥ window_size`; the empty text returns
`[]` regardless of the parameters. -/
theorem create_windows_invalid_args (text : List Char) (ws ov : Int)
    (hne : text ≠ []) (h : ws ≤ 0 ∨ ov < 0 ∨ ws ≤ ov) :
    ∃ msg, create_windows text ws ov = Except.error (PyErr.valueError msg) := by
  unfold create_windows
  split_ifs with h0 h1 h2 h3
  · exact absurd h0 hne
  · exact ⟨_, rfl⟩
  · exact ⟨_, rfl⟩
  · exact ⟨_, rfl⟩
  · omega

/-- Witness for C6's amended theorem at `text = "a"`, `window_size = 0`,
`overlap_size = 0`. -/
theorem create_windows_invalid_args_witness :
    (('a' :: [] : List Char) ≠ []) ∧ ((0 : Int) ≤ 0 ∨ (0 : Int) < 0 ∨ (0 : Int) ≤ 0) ∧
    ∃ msg, create_windows ('a' :: []) 0 0 = Except.error (PyErr.valueError msg) :=
  ⟨by decide, Or.inl (by decide),
    create_windows_invalid_args ('a' :: []) 0 0 (by decide) (Or.inl (by decide))⟩

/-- C8: `merge_chunks([], n) = ""` and `merge_chunks([x], n) = x` for every
overlap `n`, and `merge_chunks(chunks, 0)` concatenates the chunks directly
with no separator. -/
theorem merge_chunks_basics :
    (∀ n : Int, merge_chunks [] n = []) ∧
    (∀ (x : List Char) (n : Int), merge_chunks [x] n = x) ∧
    (∀ chunks : List (List Char), merge_chunks chunks 0 = chunks.flatten) := by
  refine ⟨fun _ => rfl, fun _ _ => rfl, fun chunks => ?_⟩
  match chunks with
  | [] => rfl
  | [c] => simp [merge_chunks]
  | c :: d :: rest => simp [merge_chunks]

/-- C10: for a document with an empty unit list, `translate_sliding_window`
hits `content.pages[0]` before entering its `try:` block and surfaces a bare
`IndexError`, not a `TranslationError`. -/
theorem sliding_window_empty_doc_index_error (ct : String) (config : TranslationConfig)
    (translator : TranslationRequest → Except PyErr TranslationResponse)
    (hasManager : Bool) (loaded : Option TranslationState) :
    translate_sliding_window ⟨[], ct⟩ config translator hasManager loaded =
      Except.error PyErr.indexError :=
  rfl

/-- C4 (code bug): with a checkpoint manager present and resuming enabled,
`translate_sliding_window` never returns the checkpoint's joined chunks —
whatever the checkpoint holds, whatever the translator and window
configuration: `await checkpoint_manager.load()` raises `TypeError` because
`CheckpointManager.load` is synchronous, the outer handler wraps it into
`TranslationError`, and the resume short-circuit the claim (and the spec's
ResumeCheck step) describes is dead code. -/
theorem sliding_window_resume_await_type_error (first : List Char) (rest : List PageUnit)
    (ct : String) (config : TranslationConfig)
    (translator : TranslationRequest → Except PyErr TranslationResponse)
    (loaded : Option TranslationState)
    (hres : config.resume_from_checkpoint = true) :
    translate_sliding_window ⟨PageUnit.text first :: rest, ct⟩ config translator true loaded =
      Except.error (PyErr.translationError
        ("Translation failed: " ++ pyErrStr (awaitLoadTypeError loaded))) := by
  simp [translate_sliding_window, slidingBody, hres, wrapTranslationError]

/-- Witness for C4's theorem at a concrete document, the resume-enabled config
`cfgS`, the non-empty checkpoint `stS` (the claim's scenario) and the
always-failing translator `trFail`. -/
theorem sliding_window_resume_await_type_error_witness :
    cfgS.resume_from_checkpoint = true ∧ stS.translated_chunks ≠ [] ∧
    translate_sliding_window ⟨[PageUnit.text []], "text/plain"⟩ cfgS trFail true (some stS) =
      Except.error (PyErr.translationError
        ("Translation failed: " ++ pyErrStr (awaitLoadTypeError (some stS)))) :=
  ⟨rfl, by decide,
    sliding_window_resume_await_type_error [] [] "text/plain" cfgS trFail (some stS) rfl⟩

/-- C5 (code bug): with the perfectly legal parameters `window_size = 1`,
`overlap_size = 0` (validation passes: `0 ≤ 0 < 1`), `create_windows("ab")`
returns only `["a"]` — the `start >= end` break fires although the cursor did
advance — so the windows do not cover the text: the reconstruction of the
windows' unique spans is `"a"`, losing `"b"`. -/
theorem create_windows_zero_overlap_truncates :
    create_windows ('a' :: 'b' :: []) 1 0 = Except.ok [('a' :: [])] ∧
    joinWindows 0 [('a' :: [])] ≠ 'a' :: 'b' :: [] := by
  constructor
  · simp only [create_windows]
    rw [if_neg (by decide), dif_neg (by decide), dif_neg (by decide), dif_neg (by decide)]
    rw [createWindowsGo]
    norm_num
  · decide

/-- The `translate_page_by_page` loop when the translator fails on every unit:
nothing is translated, every 1-based index is recorded as failed, tokens and
cost stay put. -/
theorem pageLoop_all_fail (translator : TranslationRequest → Except PyErr TranslationResponse)
    (config : TranslationConfig) (ct : String) :
    ∀ (pages : List PageUnit) (idx : Nat) (failed : List Nat) (toks : Nat) (cost : ℚ),
      (∀ p ∈ pages, ∃ e, translator (mkRequest config p ct) = Except.error e) →
      pageLoop translator config ct pages idx [] failed toks cost =
        ([], failed ++ List.range' (idx + 1) pages.length, toks, cost) := by
  intro pages
  induction pages with
  | nil => intro idx failed toks cost _; simp [pageLoop, List.range']
  | cons p rest ih =>
    intro idx failed toks cost h
    obtain ⟨e, he⟩ := h p (List.mem_cons_self p rest)
    have hrest : ∀ q ∈ rest, ∃ f, translator (mkRequest config q ct) = Except.error f :=
      fun q hq => h q (List.mem_cons_of_mem p hq)
    simp only [pageLoop, he]
    rw [ih (idx + 1) (failed ++ [idx + 1]) toks cost hrest]
    simp [List.range', List.append_assoc]

/-- C7: if the translator fails on every unit of a non-empty document (run
without a checkpoint manager), `translate_page_by_page` raises a
`TranslationError` whose message carries the list of all failed 1-based unit
indices (the inner raise is re-wrapped once by the outer handler, hence the
doubled prefix). -/
theorem page_all_units_fail_error (content : DocumentContent) (config : TranslationConfig)
    (translator : TranslationRequest → Except PyErr TranslationResponse)
    (hne : content.pages ≠ [])
    (hfail : ∀ p ∈ content.pages,
      ∃ e, translator (mkRequest config p content.content_type) = Except.error e) :
    translate_page_by_page content config translator false none =
      Except.error (PyErr.translationError
        ("Translation failed: " ++
          ("Translation failed: No pages were successfully translated. Failed pages: " ++
            pyListRepr (List.range' 1 content.pages.length)))) := by
  have hloop := pageLoop_all_fail translator config content.content_type content.pages
    0 [] 0 0 hfail
  have hnil : List.range' 1 content.pages.length ≠ [] :=
    (List.range'_ne_nil 1).mpr (fun h0 => hne (List.length_eq_zero.mp h0))
  simp [translate_page_by_page, pageBody, hloop, wrapTranslationError, pyErrStr, hnil]

/-- Witness for C7 at the two-unit document `docW` with the always-failing
translator. -/
theorem page_all_units_fail_error_witness :
    docW.pages ≠ [] ∧
    translate_page_by_page docW cfgA trFail false none =
      Except.error (PyErr.translationError
        ("Translation failed: " ++
          ("Translation failed: No pages were successfully translated. Failed pages: " ++
            pyListRepr (List.range' 1 docW.pages.length)))) :=
  ⟨by decide,
    page_all_units_fail_error docW cfgA trFail (by decide)
      (fun _ _ => ⟨PyErr.translationError "boom", rfl⟩)⟩

/-- A prefix match pins the pattern's length below the text's. -/
theorem take_len_le {pat s : List Char} (h : s.take pat.length = pat) :
    pat.length ≤ s.length := by
  have h2 := congrArg List.length h
  simp [List.length_take] at h2
  omega

/-- Shifting an occurrence across a cons cell. -/
theorem occursAt_cons (pat : List Char) (c : Char) (s : List Char) (j : Nat) :
    occursAt pat (c :: s) (j + 1) ↔ occursAt pat s j := by
  unfold occursAt
  rw [List.length_cons, List.drop_succ_cons]
  constructor
  · rintro ⟨ha, hb⟩; exact ⟨by omega, hb⟩
  · rintro ⟨ha, hb⟩; exact ⟨by omega, hb⟩

/-- Soundness and minimality of `pyFind`: a hit is the first occurrence. -/
theorem pyFind_some (pat : List Char) :
    ∀ (s : List Char) (i p : Nat), pyFind s pat i = some p →
      i ≤ p ∧ occursAt pat s (p - i) ∧ ∀ j < p - i, ¬ occursAt pat s j := by
  intro s
  induction s with
  | nil =>
    intro i p h
    unfold pyFind at h
    by_cases hpat : pat = []
    · rw [if_pos hpat] at h
      injection h with h
      subst h
      subst hpat
      refine ⟨le_refl i, ⟨by simp, by simp⟩, by omega⟩
    · rw [if_neg hpat] at h
      exact absurd h (by simp)
  | cons c rest ih =>
    intro i p h
    unfold pyFind at h
    by_cases hp : (c :: rest).take pat.length = pat
    · rw [if_pos hp] at h
      injection h with h
      subst h
      refine ⟨le_refl i, ⟨?_, ?_⟩, by omega⟩
      · simpa using take_len_le hp
      · simpa using hp
    · rw [if_neg hp] at h
      obtain ⟨h1, h2, h3⟩ := ih (i + 1) p h
      refine ⟨by omega, ?_, ?_⟩
      · have he : p - i = (p - (i + 1)) + 1 := by omega
        rw [he, occursAt_cons]
        exact h2
      · intro j hj
        match j with
        | 0 =>
          intro hocc
          exact hp (by simpa [occursAt] using hocc.2)
        | Nat.succ j2 =>
          intro hocc
          exact h3 j2 (by omega) ((occursAt_cons pat c rest j2).mp hocc)

/-- Completeness of `pyFind`: a miss means no occurrence at all. -/
theorem pyFind_none (pat : List Char) :
    ∀ (s : List Char) (i : Nat), pyFind s pat i = none → ∀ j, ¬ occursAt pat s j := by
  intro s
  induction s with
  | nil =>
    intro i h j hocc
    unfold pyFind at h
    by_cases hpat : pat = []
    · rw [if_pos hpat] at h; exact absurd h (by simp)
    · obtain ⟨_, h2⟩ := hocc
      simp at h2
      exact hpat h2
  | cons c rest ih =>
    intro i h j hocc
    unfold pyFind at h
    by_cases hp : (c :: rest).take pat.length = pat
    · rw [if_pos hp] at h; exact absurd h (by simp)
    · rw [if_neg hp] at h
      match j with
      | 0 => exact hp (by simpa [occursAt] using hocc.2)
      | Nat.succ j2 => exact ih (i + 1) h j2 ((occursAt_cons pat c rest j2).mp hocc)

/-- `extract_seam` past its guards, as a match on the search result. -/
theorem extract_seam_eq (t1 t2 : List Char) (ov : Int)
    (h1 : t1 ≠ []) (h2 : t2 ≠ []) (h3 : 0 < ov) :
    extract_seam t1 t2 ov =
      (if sliceLast t1 ov.toNat = [] then []
       else
        match pyFind t2 (sliceLast t1 ov.toNat) 0 with
        | some p => (t2.drop p).take ov.toNat
        | none => []) := by
  unfold extract_seam
  rw [if_neg (by push_neg; exact ⟨h1, h2, by omega⟩)]

/-- C9 counterexample: at `text1 = "a"`, `text2 = "ba"`, `overlap_size = 3`
(both texts non-empty, overlap positive, as the claim requires), the trailing
`overlap_size` characters of `text1` — the Python slice `"a"[-3:] == "a"` —
do occur in `text2`, yet the returned seam has length 1, not exactly
`overlap_size`. -/
theorem extract_seam_short_text1_cex :
    (('a' :: []) ≠ ([] : List Char)) ∧ (('b' :: 'a' :: []) ≠ ([] : List Char)) ∧
    (0 : Int) < 3 ∧
    occursAt (sliceLast ('a' :: []) ((3 : Int).toNat)) ('b' :: 'a' :: []) 1 ∧
    (extract_seam ('a' :: []) ('b' :: 'a' :: []) 3).length ≠ (3 : Int).toNat := by
  decide

/-- C9 (amended): for non-empty `text1`, `text2` and `0 < overlap_size ≤
len(text1)`: if the trailing `overlap_size` characters of `text1` occur in
`text2`, `extract_seam` returns the slice of `text2` of length exactly
`overlap_size` starting at the FIRST such occurrence; otherwise it returns
the empty string. -/
theorem extract_seam_first_occurrence (t1 t2 : List Char) (ov : Int)
    (h1 : t1 ≠ []) (h2 : t2 ≠ []) (h3 : 0 < ov) (h4 : ov.toNat ≤ t1.length) :
    ((∃ p, occursAt (sliceLast t1 ov.toNat) t2 p) →
      ∃ p, occursAt (sliceLast t1 ov.toNat) t2 p ∧
        (∀ q, occursAt (sliceLast t1 ov.toNat) t2 q → p ≤ q) ∧
        extract_seam t1 t2 ov = (t2.drop p).take ov.toNat ∧
        (extract_seam t1 t2 ov).length = ov.toNat) ∧
    ((¬ ∃ p, occursAt (sliceLast t1 ov.toNat) t2 p) → extract_seam t1 t2 ov = []) := by
  have hlen : (sliceLast t1 ov.toNat).length = ov.toNat := by
    unfold sliceLast
    rw [List.length_drop]
    omega
  have hne1 : sliceLast t1 ov.toNat ≠ [] := by
    intro h0
    rw [h0] at hlen
    simp at hlen
    omega
  have heq := extract_seam_eq t1 t2 ov h1 h2 h3
  rw [if_neg hne1] at heq
  constructor
  · intro hex
    cases hfind : pyFind t2 (sliceLast t1 ov.toNat) 0 with
    | none =>
      obtain ⟨p, hp⟩ := hex
      exact absurd hp (pyFind_none _ t2 0 hfind p)
    | some p =>
      obtain ⟨_, hocc, hmin⟩ := pyFind_some _ t2 0 p hfind
      rw [Nat.sub_zero] at hocc hmin
      rw [hfind] at heq
      refine ⟨p, hocc, ?_, heq, ?_⟩
      · intro q hq
        by_contra hlt
        exact hmin q (by omega) hq
      · rw [heq, List.length_take, List.length_drop]
        obtain ⟨hb, _⟩ := hocc
        rw [hlen] at hb
        omega
  · intro hnex
    cases hfind : pyFind t2 (sliceLast t1 ov.toNat) 0 with
    | none => rw [hfind] at heq; exact heq
    | some p =>
      obtain ⟨_, hocc, _⟩ := pyFind_some _ t2 0 p hfind
      rw [Nat.sub_zero] at hocc
      exact absurd ⟨p, hocc⟩ hnex

/-- Witness for C9's amended theorem at `text1 = "abc"`, `text2 = "zbcq"`,
`overlap_size = 2`: the trailing `"bc"` occurs (first) at index 1 and the
seam comes back as that occurrence, of length exactly 2. -/
theorem extract_seam_first_occurrence_witness :
    (("abc".toList : List Char) ≠ []) ∧ (("zbcq".toList : List Char) ≠ []) ∧
    (0 : Int) < 2 ∧ (2 : Int).toNat ≤ "abc".toList.length ∧
    (∃ p, occursAt (sliceLast ("abc".toList) ((2 : Int).toNat)) ("zbcq".toList) p) ∧
    (∃ p, occursAt (sliceLast ("abc".toList) ((2 : Int).toNat)) ("zbcq".toList) p ∧
      (∀ q, occursAt (sliceLast ("abc".toList) ((2 : Int).toNat)) ("zbcq".toList) q → p ≤ q) ∧
      extract_seam ("abc".toList) ("zbcq".toList) 2 =
        (("zbcq".toList).drop p).take ((2 : Int).toNat) ∧
      (extract_seam ("abc".toList) ("zbcq".toList) 2).length = (2 : Int).toNat) :=
  ⟨by decide, by decide, by decide, by decide, ⟨1, by decide⟩,
    (extract_seam_first_occurrence ("abc".toList) ("zbcq".toList) 2
      (by decide) (by decide) (by decide) (by decide)).1 ⟨1, by decide⟩⟩
